import Mathlib

/-!
Verification of the version/diff cache and fetch-lifecycle state machine of the
addons-code-manager client.

The development shallowly embeds the `reducers/versions` module (data shapes,
normalization functions, selectors, the redux reducer, and the `fetchDiff`
thunk) together with the `Compare` page controller (`componentDidMount`,
`componentDidUpdate`, `loadData`, `onSelectFile`).

JavaScript objects used as keyed maps are modelled as association lists with
insertion-order semantics (`objGet` / `objInsert`); JavaScript numbers that can
be NaN (results of `parseInt`) are modelled as `Option Int` with `none` for
NaN; code paths that throw at runtime (destructuring `undefined`) are modelled
by returning `none` from an `Option`-valued reducer.
-/

namespace AddonsCodeManager

/-! ### JavaScript object maps

A JavaScript object used as a string/number-keyed dictionary, in insertion
order.  `objInsert` models `{ ...m, [k]: v }`: an existing key keeps its
position and is overwritten, a new key is appended. -/

def objGet {α β : Type} [DecidableEq α] (m : List (α × β)) (k : α) : Option β :=
  match m with
  | [] => none
  | kv :: rest => if kv.1 = k then some kv.2 else objGet rest k

def objInsert {α β : Type} [DecidableEq α] (m : List (α × β)) (k : α) (v : β) :
    List (α × β) :=
  match m with
  | [] => [(k, v)]
  | kv :: rest => if kv.1 = k then (k, v) :: rest else kv :: objInsert rest k v

/-! ### JavaScript numbers parsed from route strings -/

/-- A JavaScript number that may be NaN (`none` models NaN). -/
abbrev JsNum := Option Int

/-- Accumulates further leading decimal digits; stops at the first non-digit,
as `parseInt` does. -/
def parseInt10More : List Char → Nat → Nat
  | [], acc => acc
  | c :: cs, acc => if c.isDigit then parseInt10More cs (acc * 10 + (c.toNat - 48)) else acc

/-- Parses the longest nonempty prefix of decimal digits; `none` when the
first character is not a digit. -/
def parseInt10Core : List Char → Option Nat
  | [] => none
  | c :: cs => if c.isDigit then some (parseInt10More cs (c.toNat - 48)) else none

/-- Models `parseInt(s, 10)`; `none` models NaN.  Like `parseInt`, it reads an
optional sign followed by the longest prefix of decimal digits. -/
def parseInt10 (s : String) : JsNum :=
  match s.data with
  | '-' :: rest => (parseInt10Core rest).map (fun n => -(n : Int))
  | chars => (parseInt10Core chars).map (fun n => (n : Int))

/-- JavaScript `>` on numbers: any comparison involving NaN is false. -/
def jsGt : JsNum → JsNum → Bool
  | some a, some b => decide (a > b)
  | _, _ => false

/-! ### Data shapes (`reducers/versions`) -/

abbrev VersionId := Int

abbrev LocalizedStringMap := List (String × String)

structure AppCompatibility where
  min : String
  max : String
deriving DecidableEq

abbrev VersionCompatibility := List (String × AppCompatibility)

structure VersionLicense where
  id : Int
  isCustom : Bool
  name : LocalizedStringMap
  text : LocalizedStringMap
  url : String
deriving DecidableEq

inductive VersionEntryType
  | image
  | directory
  | text
  | binary
deriving DecidableEq

structure ExternalVersionEntry where
  depth : Int
  filename : String
  mime_category : VersionEntryType
  mimetype : String
  modified : String
  path : String
  sha256 : String
  size : Option Int
deriving DecidableEq

structure PartialExternalVersionFile where
  created : String
  entries : List (String × ExternalVersionEntry)
  hash : String
  id : Int
  is_mozilla_signed_extension : Bool
  is_restart_required : Bool
  is_webextension : Bool
  permissions : List String
  platform : String
  selected_file : String
  size : Int
  status : String
  url : String
deriving DecidableEq

structure ExternalVersionAddon where
  icon_url : String
  id : Int
  name : LocalizedStringMap
  slug : String
deriving DecidableEq

structure PartialExternalVersion where
  addon : ExternalVersionAddon
  channel : String
  compatibility : VersionCompatibility
  edit_url : String
  has_been_validated : Bool
  id : VersionId
  is_strict_compatibility_enabled : Bool
  license : VersionLicense
  release_notes : Option LocalizedStringMap
  reviewed : String
  url : String
  validation_url : String
  validation_url_json : String
  version : String
deriving DecidableEq

inductive ChangeType
  | normal
  | delete
  | insert
deriving DecidableEq

structure ExternalChange where
  content : String
  new_line_number : Int
  old_line_number : Int
  type : ChangeType
deriving DecidableEq

structure ExternalHunk where
  changes : List ExternalChange
  header : String
  new_lines : Int
  new_start : Int
  old_lines : Int
  old_start : Int
deriving DecidableEq

structure ExternalDiff where
  hash : String
  hunks : List ExternalHunk
  is_binary : Bool
  lines_added : Int
  lines_deleted : Int
  mode : String
  new_ending_new_line : Bool
  old_ending_new_line : Bool
  old_path : String
  parent : String
  path : String
  size : Int
deriving DecidableEq

structure ExternalVersionFileWithContent extends PartialExternalVersionFile where
  content : String
deriving DecidableEq

structure ExternalVersionFileWithDiff extends PartialExternalVersionFile where
  diff : List ExternalDiff
deriving DecidableEq

structure ExternalVersionWithContent extends PartialExternalVersion where
  file : ExternalVersionFileWithContent
deriving DecidableEq

structure ExternalVersionWithDiff extends PartialExternalVersion where
  file : ExternalVersionFileWithDiff
deriving DecidableEq

/-- The union `ExternalVersionWithContent | ExternalVersionWithDiff` consumed
by `createInternalVersion` and the `loadVersionInfo` action. -/
inductive ExternalVersionPayload
  | withContent (version : ExternalVersionWithContent)
  | withDiff (version : ExternalVersionWithDiff)
deriving DecidableEq

structure InternalVersionFile where
  content : String
  created : String
  id : Int
  size : Int
deriving DecidableEq

structure VersionFile where
  content : String
  created : String
  filename : String
  id : Int
  mimeType : String
  sha256 : String
  size : Int
  type : VersionEntryType
  version : String
deriving DecidableEq

structure VersionEntry where
  depth : Int
  filename : String
  mimeType : String
  modified : String
  path : String
  sha256 : String
  type : VersionEntryType
deriving DecidableEq

structure VersionAddon where
  iconUrl : String
  id : Int
  name : LocalizedStringMap
  slug : String
deriving DecidableEq

structure Version where
  addon : VersionAddon
  entries : List VersionEntry
  id : VersionId
  reviewed : String
  selectedPath : String
  version : String
deriving DecidableEq

inductive Channel
  | unlisted
  | listed
deriving DecidableEq

structure VersionsListItem where
  channel : Channel
  id : VersionId
  version : String
deriving DecidableEq

abbrev ExternalVersionsList := List VersionsListItem

abbrev VersionsList := List VersionsListItem

structure VersionsMap where
  listed : VersionsList
  unlisted : VersionsList
deriving DecidableEq

/-! ### `react-diff-view`-compatible shapes produced by `createInternalDiffs` -/

structure ChangeInfo where
  content : String
  isDelete : Bool
  isInsert : Bool
  isNormal : Bool
  lineNumber : Int
  newLineNumber : Int
  oldLineNumber : Int
  type : ChangeType
deriving DecidableEq

structure HunkInfo where
  changes : List ChangeInfo
  content : String
  isPlain : Bool
  newLines : Int
  newStart : Int
  oldLines : Int
  oldStart : Int
deriving DecidableEq

structure DiffInfo where
  newRevision : String
  oldRevision : String
  hunks : List HunkInfo
  type : String
  newEndingNewLine : Bool
  oldEndingNewLine : Bool
  newMode : String
  oldMode : String
  newPath : String
  oldPath : String
deriving DecidableEq

structure CompareInfo where
  diffs : List DiffInfo
  mimeType : String
deriving DecidableEq

abbrev CompareInfoMap := List (String × CompareInfo)

/-! ### Normalization functions -/

def createInternalVersionFile (file : ExternalVersionFileWithContent) : InternalVersionFile :=
  { content := file.content
    created := file.created
    id := file.id
    size := file.size }

def createInternalVersionEntry (entry : ExternalVersionEntry) : VersionEntry :=
  { depth := entry.depth
    filename := entry.filename
    mimeType := entry.mimetype
    modified := entry.modified
    path := entry.path
    sha256 := entry.sha256
    type := entry.mime_category }

def createInternalVersionAddon (addon : ExternalVersionAddon) : VersionAddon :=
  { iconUrl := addon.icon_url
    id := addon.id
    name := addon.name
    slug := addon.slug }

/-- `Object.keys(version.file.entries).map(...)` walks the entries object in
insertion order, which the association list preserves. -/
def createInternalVersion (version : ExternalVersionPayload) : Version :=
  match version with
  | .withContent v =>
      { addon := createInternalVersionAddon v.addon
        entries := v.file.entries.map (fun nodeEntry => createInternalVersionEntry nodeEntry.2)
        id := v.id
        reviewed := v.reviewed
        selectedPath := v.file.selected_file
        version := v.version }
  | .withDiff v =>
      { addon := createInternalVersionAddon v.addon
        entries := v.file.entries.map (fun nodeEntry => createInternalVersionEntry nodeEntry.2)
        id := v.id
        reviewed := v.reviewed
        selectedPath := v.file.selected_file
        version := v.version }

/-- `version.id` of the union payload consumed by `loadVersionInfo`. -/
def ExternalVersionPayload.id : ExternalVersionPayload → VersionId
  | .withContent v => v.id
  | .withDiff v => v.id

def createVersionsMap (versions : ExternalVersionsList) : VersionsMap :=
  { listed := versions.filter (fun version => version.channel == Channel.listed)
    unlisted := versions.filter (fun version => version.channel == Channel.unlisted) }

/-- The `GIT_STATUS_TO_TYPE` object literal from `createInternalDiffs`:
`{A: 'add', C: 'copy', D: 'delete', M: 'modify', R: 'rename'}`, looked up by
mode code (`none` models an absent property). -/
def GIT_STATUS_TO_TYPE (mode : String) : Option String :=
  if mode = "A" then some "add"
  else if mode = "C" then some "copy"
  else if mode = "D" then some "delete"
  else if mode = "M" then some "modify"
  else if mode = "R" then some "rename"
  else none

/-- `GIT_STATUS_TO_TYPE[diff.mode] || GIT_STATUS_TO_TYPE.M`: every value of the
object is a nonempty (truthy) string, so `||` falls back exactly on a missing
key, and `GIT_STATUS_TO_TYPE.M` is `'modify'`. -/
def diffModeToType (mode : String) : String :=
  match GIT_STATUS_TO_TYPE mode with
  | some t => t
  | none => "modify"

def createInternalDiffs (baseVersionId headVersionId : Int)
    (version : ExternalVersionWithDiff) : List DiffInfo :=
  version.file.diff.map (fun diff =>
    { newRevision := toString headVersionId
      oldRevision := toString baseVersionId
      hunks := diff.hunks.map (fun hunk =>
        { changes := hunk.changes.map (fun change =>
            { content := change.content
              isDelete := change.type == ChangeType.delete
              isInsert := change.type == ChangeType.insert
              isNormal := change.type == ChangeType.normal
              lineNumber :=
                if change.type == ChangeType.insert then change.new_line_number
                else change.old_line_number
              newLineNumber := change.new_line_number
              oldLineNumber := change.old_line_number
              type := change.type })
          content := hunk.header
          isPlain := false
          newLines := hunk.new_lines
          newStart := hunk.new_start
          oldLines := hunk.old_lines
          oldStart := hunk.old_start })
      type := diffModeToType diff.mode
      newEndingNewLine := diff.new_ending_new_line
      oldEndingNewLine := diff.old_ending_new_line
      newMode := diff.mode
      oldMode := diff.mode
      newPath := diff.path
      oldPath := diff.old_path })

/-! ### Store state, actions, selectors, reducer -/

structure VersionsState where
  byAddonId : List (Int × VersionsMap)
  diffsByPath : List (String × Option CompareInfoMap)
  versionInfo : List (Int × Version)
  versionFiles : List (Int × List (String × InternalVersionFile))
deriving DecidableEq

def initialState : VersionsState :=
  { byAddonId := []
    diffsByPath := []
    versionInfo := []
    versionFiles := [] }

inductive VersionsAction
  | loadVersionFile (path : String) (version : ExternalVersionWithContent)
  | loadVersionInfo (version : ExternalVersionPayload)
  | updateSelectedPath (selectedPath : String) (versionId : VersionId)
  | loadVersionsList (addonId : Int) (versions : ExternalVersionsList)
  | beginFetchDiff (addonId : Int) (baseVersionId : VersionId) (headVersionId : VersionId)
  | abortFetchDiff (addonId : Int) (baseVersionId : VersionId) (headVersionId : VersionId)
  | loadDiff (addonId : Int) (baseVersionId : VersionId) (headVersionId : VersionId)
      (version : ExternalVersionWithDiff)
deriving DecidableEq

def getVersionFiles (versions : VersionsState) (versionId : VersionId) :
    Option (List (String × InternalVersionFile)) :=
  objGet versions.versionFiles versionId

def getVersionInfo (versions : VersionsState) (versionId : VersionId) : Option Version :=
  objGet versions.versionInfo versionId

def getVersionFile (versions : VersionsState) (versionId : VersionId) (path : String) :
    Option VersionFile :=
  match getVersionInfo versions versionId, getVersionFiles versions versionId with
  | some version, some filesForVersion =>
      let file := objGet filesForVersion path
      match version.entries.find? (fun e => e.path == path) with
      | none => none
      | some entry =>
          match file with
          | some file =>
              some { content := file.content
                     created := file.created
                     id := file.id
                     size := file.size
                     filename := entry.filename
                     mimeType := entry.mimeType
                     sha256 := entry.sha256
                     type := entry.type
                     version := version.version }
          | none => none
  | _, _ => none

def getDiffsKey (addonId baseVersionId headVersionId : Int) : String :=
  toString addonId ++ "/" ++ toString baseVersionId ++ "/" ++ toString headVersionId

/-- `versionsState.diffsByPath[key]`: `none` models an absent key (never
requested), `some none` models the stored `null` (aborted), `some (some m)`
models a stored mapping. -/
def getCompareInfoMap (versionsState : VersionsState)
    (addonId baseVersionId headVersionId : Int) : Option (Option CompareInfoMap) :=
  objGet versionsState.diffsByPath (getDiffsKey addonId baseVersionId headVersionId)

/-- `{ ...state.diffsByPath[key], ... }`: spreading `undefined` or `null`
contributes no properties. -/
def spreadCompareInfoMap : Option (Option CompareInfoMap) → CompareInfoMap
  | some (some m) => m
  | _ => []

/-- The `versions` reducer.  `none` models a thrown `TypeError`: the `loadDiff`
case destructures `getVersionInfo(state, headVersionId)` without checking it,
and the `updateSelectedPath` case spreads a possibly-`undefined`
`state.versionInfo[versionId]`, which would store a record missing every other
`Version` field — a value outside the typed state, likewise modelled as an
error (no claim exercises that branch). -/
def reducer (state : VersionsState) (action : VersionsAction) : Option VersionsState :=
  match action with
  | .loadVersionInfo version =>
      some { state with
        versionInfo := objInsert state.versionInfo version.id (createInternalVersion version) }
  | .loadVersionFile path version =>
      some { state with
        versionFiles := objInsert state.versionFiles version.id
          (objInsert ((objGet state.versionFiles version.id).getD []) path
            (createInternalVersionFile version.file)) }
  | .updateSelectedPath selectedPath versionId =>
      match objGet state.versionInfo versionId with
      | some v =>
          some { state with
            versionInfo := objInsert state.versionInfo versionId { v with selectedPath := selectedPath } }
      | none => none
  | .loadVersionsList addonId versions =>
      some { state with
        byAddonId := objInsert state.byAddonId addonId (createVersionsMap versions) }
  | .beginFetchDiff addonId baseVersionId headVersionId =>
      some { state with
        diffsByPath := objInsert state.diffsByPath
          (getDiffsKey addonId baseVersionId headVersionId) (some []) }
  | .abortFetchDiff addonId baseVersionId headVersionId =>
      some { state with
        diffsByPath := objInsert state.diffsByPath
          (getDiffsKey addonId baseVersionId headVersionId) none }
  | .loadDiff addonId baseVersionId headVersionId version =>
      let key := getDiffsKey addonId baseVersionId headVersionId
      match getVersionInfo state headVersionId with
      | none => none
      | some versionOfHead =>
          let entries := versionOfHead.entries
          let selectedPath := versionOfHead.selectedPath
          match entries.find? (fun e => e.path == selectedPath) with
          | none => some state
          | some entry =>
              some { state with
                diffsByPath := objInsert state.diffsByPath key
                  (some (objInsert (spreadCompareInfoMap (objGet state.diffsByPath key))
                    selectedPath
                    { diffs := createInternalDiffs baseVersionId headVersionId version
                      mimeType := entry.mimeType })) }

/-! ### The `fetchDiff` thunk -/

structure GetDiffCallParams where
  addonId : Int
  baseVersionId : Int
  headVersionId : Int
  path : Option String
deriving DecidableEq

inductive GetDiffResponse
  | errorResponse (error : String)
  | ok (version : ExternalVersionWithDiff)
deriving DecidableEq

inductive ThunkEvent
  | dispatched (action : VersionsAction)
  | calledGetDiff (params : GetDiffCallParams)
deriving DecidableEq

/-- The observable trace of the `fetchDiff` thunk, given the response the
external `getDiff` collaborator will produce.  Note the call site passes
`headVersionId: 123` — a hardcoded constant, not the `headVersionId`
parameter (source line 560). -/
def fetchDiff (addonId baseVersionId headVersionId : Int) (path : Option String)
    (response : GetDiffResponse) : List ThunkEvent :=
  [ThunkEvent.dispatched (VersionsAction.beginFetchDiff addonId baseVersionId headVersionId),
   ThunkEvent.calledGetDiff
     { addonId := addonId, baseVersionId := baseVersionId, headVersionId := 123, path := path }]
  ++ match response with
     | GetDiffResponse.errorResponse _ =>
         [ThunkEvent.dispatched (VersionsAction.abortFetchDiff addonId baseVersionId headVersionId)]
     | GetDiffResponse.ok v =>
         [ThunkEvent.dispatched (VersionsAction.loadVersionInfo (ExternalVersionPayload.withDiff v)),
          ThunkEvent.dispatched (VersionsAction.loadDiff addonId baseVersionId headVersionId v)]

/-! ### The `Compare` page controller (`CompareBase`) -/

structure RouteParams where
  addonId : String
  baseVersionId : String
  headVersionId : String
  lang : String
deriving DecidableEq

inductive CompareEffect
  | historyPush (url : String)
  | dispatchUpdateSelectedPath (selectedPath : String) (versionId : JsNum)
  | dispatchFetchDiffThunk (addonId : JsNum) (baseVersionId : JsNum) (headVersionId : JsNum)
      (path : Option String)
deriving DecidableEq

/-- `CompareBase.loadData`: route parameters are compared as strings; the
thunk is dispatched with the `parseInt`-ed values and no `path`. -/
def loadData (prevParams : Option RouteParams) (p : RouteParams) : List CompareEffect :=
  let changed : Bool :=
    match prevParams with
    | none => true
    | some q =>
        p.addonId != q.addonId || p.baseVersionId != q.baseVersionId ||
          p.headVersionId != q.headVersionId
  if changed then
    [CompareEffect.dispatchFetchDiffThunk (parseInt10 p.addonId) (parseInt10 p.baseVersionId)
      (parseInt10 p.headVersionId) none]
  else []

/-- `CompareBase.componentDidMount`: redirect (with the raw route strings
interpolated) when the parsed base version id exceeds the parsed head version
id, otherwise `this.loadData()` with no previous parameters. -/
def componentDidMount (p : RouteParams) : List CompareEffect :=
  let oldVersionId := parseInt10 p.baseVersionId
  let newVersionId := parseInt10 p.headVersionId
  if jsGt oldVersionId newVersionId then
    [CompareEffect.historyPush
      ("/" ++ p.lang ++ "/compare/" ++ p.addonId ++ "/versions/" ++ p.headVersionId ++ "..."
        ++ p.baseVersionId ++ "/")]
  else
    loadData none p

/-- `CompareBase.componentDidUpdate(prevProps)`: only `this.loadData(prevProps)`. -/
def componentDidUpdate (prevParams : RouteParams) (p : RouteParams) : List CompareEffect :=
  loadData (some prevParams) p

/-- `CompareBase.onSelectFile(path)`: always dispatch `updateSelectedPath`;
dispatch a path-scoped `fetchDiff` unless the `compareInfoMap` prop is a
mapping that already contains `path`
(`if (!compareInfoMap || !compareInfoMap[path])`). -/
def onSelectFile (compareInfoMap : Option (Option CompareInfoMap)) (p : RouteParams)
    (path : String) : List CompareEffect :=
  let cached : Bool :=
    match compareInfoMap with
    | some (some m) => (objGet m path).isSome
    | _ => false
  [CompareEffect.dispatchUpdateSelectedPath path (parseInt10 p.headVersionId)]
    ++ (if cached then []
        else
          [CompareEffect.dispatchFetchDiffThunk (parseInt10 p.addonId)
            (parseInt10 p.baseVersionId) (parseInt10 p.headVersionId) (some path)])

/-! ### Concrete payloads and states used by the witnesses and counterexamples -/

def sampleLicense : VersionLicense :=
  { id := 0, isCustom := false, name := [], text := [], url := "" }

def sampleAddon : ExternalVersionAddon :=
  { icon_url := "", id := 1, name := [("en-US", "Sample Addon")], slug := "sample-addon" }

def sampleEntry (path : String) : ExternalVersionEntry :=
  { depth := 0, filename := path, mime_category := VersionEntryType.text
    mimetype := "application/json", modified := "2019-01-01", path := path
    sha256 := "abc", size := some 12 }

def samplePartialFile (fileId : Int) (selected : String) (paths : List String) :
    PartialExternalVersionFile :=
  { created := "2019-01-01", entries := paths.map (fun p => (p, sampleEntry p))
    hash := "hash", id := fileId, is_mozilla_signed_extension := false
    is_restart_required := false, is_webextension := true, permissions := []
    platform := "all", selected_file := selected, size := 12, status := "public"
    url := "" }

def samplePartialVersion (id : Int) : PartialExternalVersion :=
  { addon := sampleAddon, channel := "listed", compatibility := [], edit_url := ""
    has_been_validated := false, id := id, is_strict_compatibility_enabled := false
    license := sampleLicense, release_notes := none, reviewed := "2019-01-01"
    url := "", validation_url := "", validation_url_json := "", version := "1.0" }

def mkDiffVersion (id : Int) (selected : String) (diff : List ExternalDiff) :
    ExternalVersionWithDiff :=
  { toPartialExternalVersion := samplePartialVersion id
    file := { toPartialExternalVersionFile := samplePartialFile (id + 100) selected [selected]
              diff := diff } }

def mkContentVersion (id : Int) (selected : String) : ExternalVersionWithContent :=
  { toPartialExternalVersion := samplePartialVersion id
    file := { toPartialExternalVersionFile := samplePartialFile (id + 100) selected [selected]
              content := "file content" } }

def mkHunk (changes : List ExternalChange) : ExternalHunk :=
  { changes := changes, header := "@@ -1 +1 @@", new_lines := 1, new_start := 1
    old_lines := 1, old_start := 1 }

def mkExternalDiff (mode : String) (hunks : List ExternalHunk) : ExternalDiff :=
  { hash := "", hunks := hunks, is_binary := false, lines_added := 0, lines_deleted := 0
    mode := mode, new_ending_new_line := true, old_ending_new_line := true
    old_path := "manifest.json", parent := "", path := "manifest.json", size := 12 }

/-- A version-with-diff payload whose id is 3 and whose selected file is
`manifest.json` (with a matching entry). -/
def headDiffVersion3 : ExternalVersionWithDiff := mkDiffVersion 3 "manifest.json" []

/-- A store that has loaded version metadata for version 3 but holds no diffs. -/
def stateWithHeadVersion3 : VersionsState :=
  { initialState with
    versionInfo := [(3, createInternalVersion (ExternalVersionPayload.withDiff headDiffVersion3))] }

/-- Version 3 metadata whose `selectedPath` has no matching entry. -/
def entrylessVersion3 : Version :=
  { addon := createInternalVersionAddon sampleAddon, entries := [], id := 3
    reviewed := "2019-01-01", selectedPath := "manifest.json", version := "1.0" }

def stateWithEntrylessVersion3 : VersionsState :=
  { initialState with versionInfo := [(3, entrylessVersion3)] }

def c2CachedInfo : CompareInfo := { diffs := [], mimeType := "application/json" }

/-- A store holding a cached diff for path `a.js` under ComparisonKey
(1, 2, 3). -/
def c2State : VersionsState :=
  { initialState with diffsByPath := [("1/2/3", some [("a.js", c2CachedInfo)])] }

def c3NormalChange : ExternalChange :=
  { content := "context line", new_line_number := 5, old_line_number := 3
    type := ChangeType.normal }

def c3InsertChange : ExternalChange :=
  { content := "added line", new_line_number := 5, old_line_number := 0
    type := ChangeType.insert }

def c3DeleteChange : ExternalChange :=
  { content := "removed line", new_line_number := 0, old_line_number := 7
    type := ChangeType.delete }

def c3NormalVersion : ExternalVersionWithDiff :=
  mkDiffVersion 2 "manifest.json" [mkExternalDiff "M" [mkHunk [c3NormalChange]]]

def c3RoundTripVersion : ExternalVersionWithDiff :=
  mkDiffVersion 2 "manifest.json" [mkExternalDiff "M" [mkHunk [c3InsertChange, c3DeleteChange]]]

def c4Version : ExternalVersionWithContent := mkContentVersion 7 "manifest.json"

def c5PrevParams : RouteParams :=
  { addonId := "123456", baseVersionId := "1", headVersionId := "2", lang := "es" }

def c5SwappedParams : RouteParams :=
  { addonId := "123456", baseVersionId := "2", headVersionId := "1", lang := "es" }

def c7InfoA : CompareInfo := { diffs := [], mimeType := "text/css" }

def c7InfoB : CompareInfo := { diffs := [], mimeType := "image/png" }

def c7Map : CompareInfoMap := [("a.js", c7InfoA), ("b.js", c7InfoB)]

/-- A store with version 3 metadata and cached diffs for `a.js` and `b.js`
under ComparisonKey (1, 2, 3); version 3's selected path is `manifest.json`. -/
def c7State : VersionsState :=
  { initialState with
    diffsByPath := [("1/2/3", some c7Map)]
    versionInfo := [(3, createInternalVersion (ExternalVersionPayload.withDiff headDiffVersion3))] }

def c8Params : RouteParams :=
  { addonId := "123456", baseVersionId := "1", headVersionId := "2", lang := "fr" }

def c8WitnessParams : RouteParams :=
  { addonId := "123456", baseVersionId := "1", headVersionId := "2", lang := "de" }

/-! ### Association-list lemmas -/

theorem objGet_objInsert_self {α β : Type} [DecidableEq α] (m : List (α × β)) (k : α) (v : β) :
    objGet (objInsert m k v) k = some v := by
  induction m with
  | nil => simp [objInsert, objGet]
  | cons kv rest ih =>
      by_cases h : kv.1 = k
      · simp [objInsert, objGet, h]
      · simp [objInsert, objGet, h, ih]

theorem objGet_objInsert_ne {α β : Type} [DecidableEq α] (m : List (α × β)) (k k' : α) (v : β)
    (hne : k' ≠ k) : objGet (objInsert m k v) k' = objGet m k' := by
  induction m with
  | nil => simp [objInsert, objGet, Ne.symm hne]
  | cons kv rest ih =>
      by_cases h : kv.1 = k
      · simp [objInsert, objGet, h, Ne.symm hne]
      · simp [objInsert, objGet, h, ih]

/-! ### Claims -/

/-- Claim C1 (code bug in the source): mounting the comparison view with route
parameters addonId=9999, baseVersionId=1, headVersionId=2 dispatches the
`fetchDiff` thunk for the parsed tuple, and the thunk does dispatch the begin
action for that ComparisonKey — but the external `getDiff` collaborator is
invoked with `headVersionId` hardcoded to 123, not the 2 parsed from the
route, so the ids passed to the fetch collaborator do not equal the ids
parsed from the route. -/
theorem c1_mount_fetch_ids :
    componentDidMount { addonId := "9999", baseVersionId := "1", headVersionId := "2", lang := "fr" }
      = [CompareEffect.dispatchFetchDiffThunk (some 9999) (some 1) (some 2) none]
    ∧ fetchDiff 9999 1 2 none (GetDiffResponse.errorResponse "err")
      = [ThunkEvent.dispatched (VersionsAction.beginFetchDiff 9999 1 2),
         ThunkEvent.calledGetDiff
           { addonId := 9999, baseVersionId := 1, headVersionId := 123, path := none },
         ThunkEvent.dispatched (VersionsAction.abortFetchDiff 9999 1 2)]
    ∧ (123 : Int) ≠ 2 := by
  refine ⟨?_, ?_, ?_⟩ <;> decide

/-- Claim C2 (code bug in the source): selecting file `b.js` while the current
ComparisonKey (1, 2, 3) caches a diff only for `a.js` does issue the scoped
fetch for `b.js` — but that scoped fetch (the same `fetchDiff` thunk) begins
by dispatching `beginFetchDiff`, which resets the cached mapping of the key to
the empty mapping, so the diff cached for `a.js` is not preserved. -/
theorem c2_scoped_fetch_reemits_begin :
    getCompareInfoMap c2State 1 2 3 = some (some [("a.js", c2CachedInfo)])
    ∧ onSelectFile (getCompareInfoMap c2State 1 2 3)
        { addonId := "1", baseVersionId := "2", headVersionId := "3", lang := "en" } "b.js"
      = [CompareEffect.dispatchUpdateSelectedPath "b.js" (some 3),
         CompareEffect.dispatchFetchDiffThunk (some 1) (some 2) (some 3) (some "b.js")]
    ∧ (fetchDiff 1 2 3 (some "b.js") (GetDiffResponse.errorResponse "err")).head?
      = some (ThunkEvent.dispatched (VersionsAction.beginFetchDiff 1 2 3))
    ∧ reducer c2State (VersionsAction.beginFetchDiff 1 2 3)
      = some { c2State with diffsByPath := [("1/2/3", some [])] }
    ∧ getCompareInfoMap { c2State with diffsByPath := [("1/2/3", some [])] } 1 2 3
      = some (some [])
    ∧ objGet ([] : CompareInfoMap) "a.js" = none := by
  refine ⟨?_, ?_, ?_, ?_, ?_, ?_⟩ <;> decide

/-- Claim C3, counterexample: a `normal` change with new-line-number 5 and
old-line-number 3 is normalized to `lineNumber` 3 (the old line number), not 5
as the claim (new line number for insert or normal) requires. -/
theorem c3_normal_change_counterexample :
    (createInternalDiffs 1 2 c3NormalVersion).map
        (fun d => d.hunks.map (fun hk => hk.changes.map (fun c => c.lineNumber)))
      = [[[3]]]
    ∧ (3 : Int) ≠ 5 := by
  refine ⟨?_, ?_⟩ <;> decide

/-- Claim C3 as amended: for every raw diff payload, the normalized displayed
line number equals the new line number exactly when the change kind is
`insert`, and the old line number otherwise (including `normal`); the concrete
round trip for an insert at new line 5 and a delete at old line 7 yields 5 and
7 respectively. -/
theorem c3_lineNumber_normalization (b hd : Int) (v : ExternalVersionWithDiff) :
    (createInternalDiffs b hd v).map
        (fun d => d.hunks.map (fun hk => hk.changes.map (fun c => c.lineNumber)))
      = v.file.diff.map (fun d => d.hunks.map (fun hk => hk.changes.map (fun c =>
          if c.type = ChangeType.insert then c.new_line_number else c.old_line_number)))
    ∧ (createInternalDiffs 1 2 c3RoundTripVersion).map
        (fun d => d.hunks.map (fun hk => hk.changes.map (fun c => c.lineNumber)))
      = [[[5, 7]]] := by
  constructor
  · simp [createInternalDiffs, List.map_map, Function.comp_def]
  · decide

/-- Claim C3, witness: the amended normalization statement evaluated on the
concrete payload with a `normal` change. -/
theorem c3_lineNumber_normalization_witness :
    (createInternalDiffs 9 9 c3NormalVersion).map
        (fun d => d.hunks.map (fun hk => hk.changes.map (fun c => c.lineNumber)))
      = c3NormalVersion.file.diff.map (fun d => d.hunks.map (fun hk => hk.changes.map (fun c =>
          if c.type = ChangeType.insert then c.new_line_number else c.old_line_number))) :=
  (c3_lineNumber_normalization 9 9 c3NormalVersion).1

/-- Claim C4, counterexample: applying `loadVersionFile` to the initial state
— which holds no version metadata at all — is not a no-op: it stores the file
content under (version id 7, `manifest.json`). -/
theorem c4_loadVersionFile_not_noop_counterexample :
    getVersionInfo initialState 7 = none
    ∧ reducer initialState (VersionsAction.loadVersionFile "manifest.json" c4Version)
      = some { initialState with
          versionFiles := [(7, [("manifest.json", createInternalVersionFile c4Version.file)])] }
    ∧ reducer initialState (VersionsAction.loadVersionFile "manifest.json" c4Version)
      ≠ some initialState := by
  refine ⟨?_, ?_, ?_⟩ <;> decide

/-- Claim C4 as amended: applying `loadVersionFile` when the referenced
version metadata is absent is not a silent no-op — the reducer case has no
guard and stores the normalized file content under (version id, path)
unconditionally; the missing-version situation surfaces only at read time,
where `getVersionFile` returns `none`. -/
theorem c4_loadVersionFile_stores_unconditionally (s : VersionsState) (path : String)
    (v : ExternalVersionWithContent) (hmissing : getVersionInfo s v.id = none) :
    reducer s (VersionsAction.loadVersionFile path v)
      = some { s with
          versionFiles := objInsert s.versionFiles v.id
            (objInsert ((objGet s.versionFiles v.id).getD []) path
              (createInternalVersionFile v.file)) }
    ∧ (∀ s', reducer s (VersionsAction.loadVersionFile path v) = some s' →
        getVersionFile s' v.id path = none) := by
  constructor
  · simp [reducer]
  · intro s' hs'
    simp only [reducer, Option.some.injEq] at hs'
    subst hs'
    simp only [getVersionFile, getVersionInfo] at hmissing ⊢
    simp [hmissing]

/-- Claim C4, witness: the unconditional store evaluated at the initial state. -/
theorem c4_loadVersionFile_stores_unconditionally_witness :
    reducer initialState (VersionsAction.loadVersionFile "manifest.json" c4Version)
      = some { initialState with
          versionFiles := objInsert initialState.versionFiles c4Version.id
            (objInsert ((objGet initialState.versionFiles c4Version.id).getD []) "manifest.json"
              (createInternalVersionFile c4Version.file)) }
    ∧ getVersionFile
        { initialState with
          versionFiles := [(7, [("manifest.json", createInternalVersionFile c4Version.file)])] }
        7 "manifest.json" = none := by
  have T := c4_loadVersionFile_stores_unconditionally initialState "manifest.json" c4Version
    (by decide)
  exact ⟨T.1, T.2 _ (by decide)⟩

/-- Claim C5, counterexample: a controller update whose new tuple has
baseVersionId=2 greater than headVersionId=1 issues zero redirects and one
fetch dispatch — the redirect rule is only evaluated on mount, not on update. -/
theorem c5_update_no_redirect_counterexample :
    componentDidUpdate c5PrevParams c5SwappedParams
      = [CompareEffect.dispatchFetchDiffThunk (some 123456) (some 2) (some 1) none]
    ∧ (componentDidUpdate c5PrevParams c5SwappedParams).countP
        (fun e => match e with | CompareEffect.historyPush _ => true | _ => false) = 0
    ∧ (componentDidUpdate c5PrevParams c5SwappedParams).countP
        (fun e => match e with
          | CompareEffect.dispatchFetchDiffThunk _ _ _ _ => true
          | _ => false) = 1 := by
  refine ⟨?_, ?_, ?_⟩ <;> decide

/-- Claim C5 as amended: on mount, for every route parameter tuple whose
parsed baseVersionId exceeds the parsed headVersionId, the controller issues
exactly one redirect — a router push to
/lang/compare/addonId/versions/headVersionId...baseVersionId/ — and zero
fetch dispatches; the update path performs no such check. -/
theorem c5_mount_redirect_precedence (p : RouteParams) (ob nb : Int)
    (hob : parseInt10 p.baseVersionId = some ob)
    (hnb : parseInt10 p.headVersionId = some nb)
    (hgt : ob > nb) :
    componentDidMount p
      = [CompareEffect.historyPush
          ("/" ++ p.lang ++ "/compare/" ++ p.addonId ++ "/versions/" ++ p.headVersionId
            ++ "..." ++ p.baseVersionId ++ "/")] := by
  simp only [componentDidMount, hob, hnb, jsGt]
  simp [hgt]

/-- Claim C5, witness: the es scenario — mounting with baseVersionId=2,
headVersionId=1, lang=es, addonId=123456 pushes exactly
/es/compare/123456/versions/1...2/. -/
theorem c5_mount_redirect_precedence_witness :
    componentDidMount c5SwappedParams
      = [CompareEffect.historyPush "/es/compare/123456/versions/1...2/"] := by
  rw [c5_mount_redirect_precedence c5SwappedParams 2 1 (by decide) (by decide) (by decide)]
  decide

/-- Claim C6: the diff cache exposes exactly three states through the
selector — for a ComparisonKey never requested, `getCompareInfoMap` returns
the not-requested marker (`none`, modelling `undefined`); immediately after
`beginFetchDiff` it returns the empty mapping; immediately after
`abortFetchDiff` it returns the stored null; and after a successful `loadDiff`
it returns a mapping containing an entry for the selected path. -/
theorem c6_three_state_diff_cache (s : VersionsState) (a b hd : Int)
    (fresh : objGet s.diffsByPath (getDiffsKey a b hd) = none) :
    getCompareInfoMap s a b hd = none
    ∧ (∀ s1, reducer s (VersionsAction.beginFetchDiff a b hd) = some s1 →
        getCompareInfoMap s1 a b hd = some (some []))
    ∧ (∀ s2, reducer s (VersionsAction.abortFetchDiff a b hd) = some s2 →
        getCompareInfoMap s2 a b hd = some none)
    ∧ (∀ (v : ExternalVersionWithDiff) (vi : Version) (s3 : VersionsState),
        getVersionInfo s hd = some vi →
        (vi.entries.find? (fun e => e.path == vi.selectedPath)).isSome = true →
        reducer s (VersionsAction.loadDiff a b hd v) = some s3 →
        ∃ m, getCompareInfoMap s3 a b hd = some (some m)
          ∧ (objGet m vi.selectedPath).isSome = true) := by
  refine ⟨?_, ?_, ?_, ?_⟩
  · simpa [getCompareInfoMap] using fresh
  · intro s1 h1
    simp only [reducer, Option.some.injEq] at h1
    subst h1
    simp [getCompareInfoMap, objGet_objInsert_self]
  · intro s2 h2
    simp only [reducer, Option.some.injEq] at h2
    subst h2
    simp [getCompareInfoMap, objGet_objInsert_self]
  · intro v vi s3 hvi hentry h3
    cases hfind : vi.entries.find? (fun e => e.path == vi.selectedPath) with
    | none => rw [hfind] at hentry; simp at hentry
    | some entry =>
        simp only [reducer, hvi, hfind, Option.some.injEq] at h3
        subst h3
        refine ⟨objInsert (spreadCompareInfoMap (objGet s.diffsByPath (getDiffsKey a b hd)))
          vi.selectedPath
          { diffs := createInternalDiffs b hd v, mimeType := entry.mimeType }, ?_, ?_⟩
        · simp [getCompareInfoMap, objGet_objInsert_self]
        · simp [objGet_objInsert_self]

/-- Claim C6, witness: the four cache states evaluated on a concrete store
holding version 3 metadata, for ComparisonKey (1, 2, 3). -/
theorem c6_three_state_diff_cache_witness :
    getCompareInfoMap stateWithHeadVersion3 1 2 3 = none
    ∧ getCompareInfoMap
        { stateWithHeadVersion3 with diffsByPath := [("1/2/3", some [])] } 1 2 3
        = some (some [])
    ∧ getCompareInfoMap
        { stateWithHeadVersion3 with diffsByPath := [("1/2/3", none)] } 1 2 3
        = some none
    ∧ ∃ m, getCompareInfoMap
          { stateWithHeadVersion3 with
            diffsByPath := [("1/2/3", some [("manifest.json",
              { diffs := createInternalDiffs 2 3 headDiffVersion3
                mimeType := "application/json" })])] } 1 2 3
          = some (some m)
        ∧ (objGet m "manifest.json").isSome = true := by
  have T := c6_three_state_diff_cache stateWithHeadVersion3 1 2 3 (by decide)
  refine ⟨T.1, ?_, ?_, ?_⟩
  · exact T.2.1 _ (by decide)
  · exact T.2.2.1 _ (by decide)
  · exact T.2.2.2 headDiffVersion3
      (createInternalVersion (ExternalVersionPayload.withDiff headDiffVersion3)) _
      (by decide) (by decide) (by decide)

/-- Claim C7: for every state in which a ComparisonKey holds cached results
for paths pA and pB, applying `loadDiff` whose selected path is a third path
returns a state whose mapping for that key contains pA and pB unchanged
together with the new entry for the selected path. -/
theorem c7_loadDiff_preserves_siblings (s : VersionsState) (a b hd : Int) (m : CompareInfoMap)
    (pA pB : String) (cA cB : CompareInfo) (v : ExternalVersionWithDiff)
    (vi : Version) (entry : VersionEntry)
    (hmap : objGet s.diffsByPath (getDiffsKey a b hd) = some (some m))
    (hA : objGet m pA = some cA) (hB : objGet m pB = some cB)
    (hvi : getVersionInfo s hd = some vi)
    (hentry : vi.entries.find? (fun e => e.path == vi.selectedPath) = some entry)
    (hCA : vi.selectedPath ≠ pA) (hCB : vi.selectedPath ≠ pB) :
    ∃ m', reducer s (VersionsAction.loadDiff a b hd v)
        = some { s with diffsByPath := objInsert s.diffsByPath (getDiffsKey a b hd) (some m') }
      ∧ getCompareInfoMap
          { s with diffsByPath := objInsert s.diffsByPath (getDiffsKey a b hd) (some m') }
          a b hd = some (some m')
      ∧ objGet m' pA = some cA ∧ objGet m' pB = some cB
      ∧ objGet m' vi.selectedPath
          = some { diffs := createInternalDiffs b hd v, mimeType := entry.mimeType } := by
  refine ⟨objInsert m vi.selectedPath
    { diffs := createInternalDiffs b hd v, mimeType := entry.mimeType }, ?_, ?_, ?_, ?_, ?_⟩
  · simp only [reducer, hvi, hentry, hmap, spreadCompareInfoMap]
  · simp [getCompareInfoMap, objGet_objInsert_self]
  · rw [objGet_objInsert_ne _ _ _ _ (Ne.symm hCA)]; exact hA
  · rw [objGet_objInsert_ne _ _ _ _ (Ne.symm hCB)]; exact hB
  · exact objGet_objInsert_self _ _ _

/-- Claim C7, witness: the sibling-preserving merge evaluated on a concrete
store caching diffs for `a.js` and `b.js` while loading `manifest.json`. -/
theorem c7_loadDiff_preserves_siblings_witness :
    ∃ m', reducer c7State (VersionsAction.loadDiff 1 2 3 headDiffVersion3)
        = some { c7State with
            diffsByPath := objInsert c7State.diffsByPath (getDiffsKey 1 2 3) (some m') }
      ∧ getCompareInfoMap
          { c7State with
            diffsByPath := objInsert c7State.diffsByPath (getDiffsKey 1 2 3) (some m') }
          1 2 3 = some (some m')
      ∧ objGet m' "a.js" = some c7InfoA ∧ objGet m' "b.js" = some c7InfoB
      ∧ objGet m' "manifest.json"
          = some { diffs := createInternalDiffs 2 3 headDiffVersion3
                   mimeType := "application/json" } := by
  exact c7_loadDiff_preserves_siblings c7State 1 2 3 c7Map "a.js" "b.js" c7InfoA c7InfoB
    headDiffVersion3
    (createInternalVersion (ExternalVersionPayload.withDiff headDiffVersion3))
    (createInternalVersionEntry (sampleEntry "manifest.json"))
    (by decide) (by decide) (by decide) (by decide) (by decide) (by decide) (by decide)

/-- Claim C8, counterexample: mounting with tuple (123456, 1, 2) dispatches
the fetch regardless of any previous session — `componentDidMount` takes no
store input at all, so a re-mount with an identical tuple after a successful
load re-dispatches the fetch (and, through the thunk, the begin event). -/
theorem c8_remount_refetches_counterexample :
    componentDidMount c8Params
      = [CompareEffect.dispatchFetchDiffThunk (some 123456) (some 1) (some 2) none]
    ∧ componentDidMount c8Params ≠ ([] : List CompareEffect) := by
  refine ⟨?_, ?_⟩ <;> decide

/-- Claim C8 as amended: a controller update whose route parameter tuple
equals the previous tuple dispatches nothing (no begin, no fetch), but every
mount — including a re-mount with an identical tuple after a successful
load — dispatches the fetch thunk again whenever the redirect guard does not
fire. -/
theorem c8_equal_tuple_noop (prev p : RouteParams)
    (ha : p.addonId = prev.addonId) (hb : p.baseVersionId = prev.baseVersionId)
    (hh : p.headVersionId = prev.headVersionId) :
    componentDidUpdate prev p = []
    ∧ (∀ q : RouteParams,
        jsGt (parseInt10 q.baseVersionId) (parseInt10 q.headVersionId) = false →
        componentDidMount q
          = [CompareEffect.dispatchFetchDiffThunk (parseInt10 q.addonId)
              (parseInt10 q.baseVersionId) (parseInt10 q.headVersionId) none]) := by
  constructor
  · simp [componentDidUpdate, loadData, ha, hb, hh]
  · intro q hq
    simp [componentDidMount, hq, loadData]

/-- Claim C8, witness: the no-op update and the always-fetching mount
evaluated at the concrete tuple (123456, 1, 2). -/
theorem c8_equal_tuple_noop_witness :
    componentDidUpdate c8WitnessParams c8WitnessParams = []
    ∧ componentDidMount c8WitnessParams
      = [CompareEffect.dispatchFetchDiffThunk (some 123456) (some 1) (some 2) none] := by
  have T := c8_equal_tuple_noop c8WitnessParams c8WitnessParams rfl rfl rfl
  refine ⟨T.1, ?_⟩
  rw [T.2 c8WitnessParams (by decide)]
  decide

/-- Claim C9: the single-letter mode code maps to add/copy/delete/modify/
rename for A/C/D/M/R, every other mode string maps to modify (the mapping is
total, no error path), and `createInternalDiffs` assigns exactly this mapping
as the whole-file status of each normalized diff. -/
theorem c9_mode_mapping_total :
    (diffModeToType "A" = "add" ∧ diffModeToType "C" = "copy"
      ∧ diffModeToType "D" = "delete" ∧ diffModeToType "M" = "modify"
      ∧ diffModeToType "R" = "rename")
    ∧ (∀ mode : String, mode ∉ (["A", "C", "D", "M", "R"] : List String) →
        diffModeToType mode = "modify")
    ∧ (∀ (b hd : Int) (v : ExternalVersionWithDiff),
        (createInternalDiffs b hd v).map (fun d => d.type)
          = v.file.diff.map (fun d => diffModeToType d.mode)) := by
  refine ⟨by decide, ?_, ?_⟩
  · intro mode hmode
    simp only [List.mem_cons, List.not_mem_nil, or_false, not_or] at hmode
    obtain ⟨hA, hC, hD, hM, hR⟩ := hmode
    simp [diffModeToType, GIT_STATUS_TO_TYPE, hA, hC, hD, hM, hR]
  · intro b hd v
    simp [createInternalDiffs, List.map_map, Function.comp_def]

/-- Claim C9, witness: an unrecognized mode code evaluates to modify. -/
theorem c9_mode_mapping_total_witness : diffModeToType "Z" = "modify" :=
  c9_mode_mapping_total.2.1 "Z" (by decide)

/-- Claim C10: the `loadDiff` reducer case reads the head version metadata
before its missing-entry guard, so for a state lacking that metadata the
operation is not a silent no-op — it is the modelled runtime error (`none`,
the thrown `TypeError`); the documented silent discard (state returned
unchanged) covers only the case of present metadata whose selected path has no
matching entry. -/
theorem c10_loadDiff_requires_head_version (s : VersionsState) (a b hd : Int)
    (v : ExternalVersionWithDiff) :
    (getVersionInfo s hd = none → reducer s (VersionsAction.loadDiff a b hd v) = none)
    ∧ (∀ vi, getVersionInfo s hd = some vi →
        vi.entries.find? (fun e => e.path == vi.selectedPath) = none →
        reducer s (VersionsAction.loadDiff a b hd v) = some s) := by
  constructor
  · intro hnone
    simp only [reducer, hnone]
  · intro vi hvi hfind
    simp only [reducer, hvi, hfind]

/-- Claim C10, witness: `loadDiff` on the empty store errs, while `loadDiff`
on a store whose version 3 metadata lacks the selected entry is a silent
no-op. -/
theorem c10_loadDiff_requires_head_version_witness :
    reducer initialState (VersionsAction.loadDiff 1 2 3 headDiffVersion3) = none
    ∧ reducer stateWithEntrylessVersion3 (VersionsAction.loadDiff 1 2 3 headDiffVersion3)
        = some stateWithEntrylessVersion3 := by
  constructor
  · exact (c10_loadDiff_requires_head_version initialState 1 2 3 headDiffVersion3).1 (by decide)
  · exact (c10_loadDiff_requires_head_version stateWithEntrylessVersion3 1 2 3
      headDiffVersion3).2 entrylessVersion3 (by decide) (by decide)

end AddonsCodeManager
